import Mathlib

/-!
Shallow embedding of the sensing subsystem of `senseplus_hardware_backend_rust`.

Strings from the Rust source are modelled as lists of (ASCII) character
codes (`Str`), so that the case mappings `to_lowercase` / `to_uppercase`
used by the orchestrator become plain arithmetic on codes.  Floating point
(`f32`) sensor values are modelled as exact rationals; the decimal literals
appearing in the source (`10.1`, `50.1`, ...) are taken at their exact
decimal value.  Machine integers (`u16` distances, `i32::MAX`) are modelled
as `Nat` / `Int` with the concrete constants from the source.
-/

/-- Strings as lists of character codes. -/
abbrev Str := List Nat

/-- Character codes of a Lean string literal, used to write down the
concrete sensor names appearing in the source. -/
def strCodes (s : String) : Str := s.data.map Char.toNat

/-- ASCII lower-casing of one character code, the effect of Rust
`to_lowercase` on the ASCII names used by this program. -/
def lowerChar (c : Nat) : Nat := if 65 ≤ c ∧ c ≤ 90 then c + 32 else c

/-- ASCII upper-casing of one character code, the effect of Rust
`to_uppercase` on the ASCII names used by this program. -/
def upperChar (c : Nat) : Nat := if 97 ≤ c ∧ c ≤ 122 then c - 32 else c

/-- `to_lowercase` on a name. -/
def lowerStr (s : Str) : Str := s.map lowerChar

/-- `to_uppercase` on a name. -/
def upperStr (s : Str) : Str := s.map upperChar

/- Sensor catalog keys, from `src/constants/sensor.rs` (`SensorConstant`). -/

def bh1750Key : Str := strCodes "bh1750"

def bme280Key : Str := strCodes "bme280"

def ds3231snKey : Str := strCodes "ds3231sn"

def vl53l0xKey : Str := strCodes "vl53l0x"

/-- Light-condition classifier of the BH1750 driver,
`get_light_condition` in `src/sensors/bh1750.rs`.  The Rust source matches
`lux` against the inclusive `f32` ranges `0.0..=10.0`, `10.1..=50.0`,
`50.1..=200.0`, `200.1..=1000.0`, `1000.1..=5000.0`, `5000.1..=10000.0`
in order, with a catch-all `EXTREME` arm. -/
def get_light_condition (lux : ℚ) : String :=
  if 0 ≤ lux ∧ lux ≤ 10 then "VERY_DARK"
  else if 10.1 ≤ lux ∧ lux ≤ 50 then "DARK"
  else if 50.1 ≤ lux ∧ lux ≤ 200 then "DIM"
  else if 200.1 ≤ lux ∧ lux ≤ 1000 then "NORMAL"
  else if 1000.1 ≤ lux ∧ lux ≤ 5000 then "BRIGHT"
  else if 5000.1 ≤ lux ∧ lux ≤ 10000 then "VERY_BRIGHT"
  else "EXTREME"

/-- Proximity classifier of the VL53L0X driver,
`VL53L0XSensor::get_distance_status` in `src/sensors/vl53l0x.rs`, matching
a `u16` distance against `0..=10`, `11..=50`, `51..=200`, `201..=500`,
`501..=1000`, `1001..=2000` with catch-all `OUT_OF_RANGE`. -/
def get_distance_status (d : Nat) : String :=
  if d ≤ 10 then "TOO_CLOSE"
  else if 11 ≤ d ∧ d ≤ 50 then "VERY_CLOSE"
  else if 51 ≤ d ∧ d ≤ 200 then "CLOSE"
  else if 201 ≤ d ∧ d ≤ 500 then "NEAR"
  else if 501 ≤ d ∧ d ≤ 1000 then "MEDIUM"
  else if 1001 ≤ d ∧ d ≤ 2000 then "FAR"
  else "OUT_OF_RANGE"

/-- Rank of a light condition in the order the spec enumerates
`LightCondition` (VERY_DARK < DARK < DIM < NORMAL < BRIGHT <
VERY_BRIGHT < EXTREME). -/
def lightConditionRank (c : String) : Nat :=
  if c = "VERY_DARK" then 0
  else if c = "DARK" then 1
  else if c = "DIM" then 2
  else if c = "NORMAL" then 3
  else if c = "BRIGHT" then 4
  else if c = "VERY_BRIGHT" then 5
  else 6

/-- Rank of a proximity class in the order the spec enumerates
`ProximityClass`. -/
def proximityRank (c : String) : Nat :=
  if c = "TOO_CLOSE" then 0
  else if c = "VERY_CLOSE" then 1
  else if c = "CLOSE" then 2
  else if c = "NEAR" then 3
  else if c = "MEDIUM" then 4
  else if c = "FAR" then 5
  else if c = "OUT_OF_RANGE" then 6
  else 7

/-- The seven light-condition labels. -/
def lightLabels : List String :=
  ["VERY_DARK", "DARK", "DIM", "NORMAL", "BRIGHT", "VERY_BRIGHT", "EXTREME"]

/-- The proximity labels produced by `get_distance_status`. -/
def distanceLabels : List String :=
  ["TOO_CLOSE", "VERY_CLOSE", "CLOSE", "NEAR", "MEDIUM", "FAR", "OUT_OF_RANGE"]

example : get_light_condition 250 = "NORMAL" := by
  norm_num [get_light_condition]
example : get_light_condition (201/20) = "EXTREME" := by
  norm_num [get_light_condition]

/-- Interval description of the bins `get_light_condition` actually
implements, including the `EXTREME` catch-all on the gaps between
consecutive source ranges and on negative inputs. -/
def lightConditionBins (lux : ℚ) : String :=
  if lux < 0 then "EXTREME"
  else if lux ≤ 10 then "VERY_DARK"
  else if lux < 10.1 then "EXTREME"
  else if lux ≤ 50 then "DARK"
  else if lux < 50.1 then "EXTREME"
  else if lux ≤ 200 then "DIM"
  else if lux < 200.1 then "EXTREME"
  else if lux ≤ 1000 then "NORMAL"
  else if lux < 1000.1 then "EXTREME"
  else if lux ≤ 5000 then "BRIGHT"
  else if lux < 5000.1 then "EXTREME"
  else if lux ≤ 10000 then "VERY_BRIGHT"
  else "EXTREME"

lemma glc_very_dark (lux : ℚ) (ha : 0 ≤ lux) (hb : lux ≤ 10) :
    get_light_condition lux = "VERY_DARK" := by
  rw [get_light_condition, if_pos ⟨ha, hb⟩]

lemma glc_dark (lux : ℚ) (ha : 10.1 ≤ lux) (hb : lux ≤ 50) :
    get_light_condition lux = "DARK" := by
  rw [get_light_condition, if_neg (by rintro ⟨x, y⟩; linarith),
    if_pos ⟨ha, hb⟩]

lemma glc_dim (lux : ℚ) (ha : 50.1 ≤ lux) (hb : lux ≤ 200) :
    get_light_condition lux = "DIM" := by
  rw [get_light_condition, if_neg (by rintro ⟨x, y⟩; linarith),
    if_neg (by rintro ⟨x, y⟩; linarith), if_pos ⟨ha, hb⟩]

lemma glc_normal (lux : ℚ) (ha : 200.1 ≤ lux) (hb : lux ≤ 1000) :
    get_light_condition lux = "NORMAL" := by
  rw [get_light_condition, if_neg (by rintro ⟨x, y⟩; linarith),
    if_neg (by rintro ⟨x, y⟩; linarith),
    if_neg (by rintro ⟨x, y⟩; linarith), if_pos ⟨ha, hb⟩]

lemma glc_bright (lux : ℚ) (ha : 1000.1 ≤ lux) (hb : lux ≤ 5000) :
    get_light_condition lux = "BRIGHT" := by
  rw [get_light_condition, if_neg (by rintro ⟨x, y⟩; linarith),
    if_neg (by rintro ⟨x, y⟩; linarith),
    if_neg (by rintro ⟨x, y⟩; linarith),
    if_neg (by rintro ⟨x, y⟩; linarith), if_pos ⟨ha, hb⟩]

lemma glc_very_bright (lux : ℚ) (ha : 5000.1 ≤ lux) (hb : lux ≤ 10000) :
    get_light_condition lux = "VERY_BRIGHT" := by
  rw [get_light_condition, if_neg (by rintro ⟨x, y⟩; linarith),
    if_neg (by rintro ⟨x, y⟩; linarith),
    if_neg (by rintro ⟨x, y⟩; linarith),
    if_neg (by rintro ⟨x, y⟩; linarith),
    if_neg (by rintro ⟨x, y⟩; linarith), if_pos ⟨ha, hb⟩]

lemma glc_extreme (lux : ℚ)
    (h1 : ¬(0 ≤ lux ∧ lux ≤ 10)) (h2 : ¬(10.1 ≤ lux ∧ lux ≤ 50))
    (h3 : ¬(50.1 ≤ lux ∧ lux ≤ 200)) (h4 : ¬(200.1 ≤ lux ∧ lux ≤ 1000))
    (h5 : ¬(1000.1 ≤ lux ∧ lux ≤ 5000)) (h6 : ¬(5000.1 ≤ lux ∧ lux ≤ 10000)) :
    get_light_condition lux = "EXTREME" := by
  rw [get_light_condition, if_neg h1, if_neg h2, if_neg h3, if_neg h4,
    if_neg h5, if_neg h6]

lemma get_light_condition_eq_bins (lux : ℚ) :
    get_light_condition lux = lightConditionBins lux := by
  unfold lightConditionBins
  rcases lt_or_le lux 0 with h | hq0
  · rw [if_pos h]
    apply glc_extreme <;> rintro ⟨x, y⟩ <;> linarith
  rw [if_neg (not_lt.mpr hq0)]
  rcases le_or_lt lux 10 with h | h10
  · rw [if_pos h]; exact glc_very_dark lux hq0 h
  rw [if_neg (not_le.mpr h10)]
  rcases lt_or_le lux 10.1 with h | h10a
  · rw [if_pos h]
    apply glc_extreme <;> rintro ⟨x, y⟩ <;> linarith
  rw [if_neg (not_lt.mpr h10a)]
  rcases le_or_lt lux 50 with h | h50
  · rw [if_pos h]; exact glc_dark lux h10a h
  rw [if_neg (not_le.mpr h50)]
  rcases lt_or_le lux 50.1 with h | h50a
  · rw [if_pos h]
    apply glc_extreme <;> rintro ⟨x, y⟩ <;> linarith
  rw [if_neg (not_lt.mpr h50a)]
  rcases le_or_lt lux 200 with h | h200
  · rw [if_pos h]; exact glc_dim lux h50a h
  rw [if_neg (not_le.mpr h200)]
  rcases lt_or_le lux 200.1 with h | h200a
  · rw [if_pos h]
    apply glc_extreme <;> rintro ⟨x, y⟩ <;> linarith
  rw [if_neg (not_lt.mpr h200a)]
  rcases le_or_lt lux 1000 with h | h1000
  · rw [if_pos h]; exact glc_normal lux h200a h
  rw [if_neg (not_le.mpr h1000)]
  rcases lt_or_le lux 1000.1 with h | h1000a
  · rw [if_pos h]
    apply glc_extreme <;> rintro ⟨x, y⟩ <;> linarith
  rw [if_neg (not_lt.mpr h1000a)]
  rcases le_or_lt lux 5000 with h | h5000
  · rw [if_pos h]; exact glc_bright lux h1000a h
  rw [if_neg (not_le.mpr h5000)]
  rcases lt_or_le lux 5000.1 with h | h5000a
  · rw [if_pos h]
    apply glc_extreme <;> rintro ⟨x, y⟩ <;> linarith
  rw [if_neg (not_lt.mpr h5000a)]
  rcases le_or_lt lux 10000 with h | h10000
  · rw [if_pos h]; exact glc_very_bright lux h5000a h
  rw [if_neg (not_le.mpr h10000)]
  apply glc_extreme <;> rintro ⟨x, y⟩ <;> linarith

lemma get_light_condition_total (lux : ℚ) :
    get_light_condition lux ∈ lightLabels := by
  unfold get_light_condition lightLabels
  split_ifs <;> decide

lemma get_distance_status_total (d : Nat) :
    get_distance_status d ∈ distanceLabels := by
  unfold get_distance_status distanceLabels
  split_ifs <;> decide

lemma proximityRank_get_distance_status (d : Nat) :
    proximityRank (get_distance_status d) =
      if d ≤ 10 then 0
      else if d ≤ 50 then 1
      else if d ≤ 200 then 2
      else if d ≤ 500 then 3
      else if d ≤ 1000 then 4
      else if d ≤ 2000 then 5
      else 6 := by
  unfold get_distance_status
  split_ifs <;> first | decide | omega

lemma get_distance_status_mono (d1 d2 : Nat) (h : d1 ≤ d2) :
    proximityRank (get_distance_status d1) ≤
      proximityRank (get_distance_status d2) := by
  rw [proximityRank_get_distance_status, proximityRank_get_distance_status]
  split_ifs <;> omega
example : get_distance_status 7 = "TOO_CLOSE" := by decide
example : get_distance_status 2500 = "OUT_OF_RANGE" := by decide
example : upperStr bh1750Key = strCodes "BH1750" := by decide
example : lowerStr (strCodes "BH1750") = bh1750Key := by decide

/-- Kind tag standing for a concrete constructed driver held in the
factory store (`Box<dyn ISensor ...>` in `src/factories/sensor.rs`). -/
inductive SensorKind where
  | bme280
  | bh1750
  | ds3231sn
  | vl53l0x
deriving DecidableEq

/-- Errors the sensing pipeline can surface past `_run`:
the `NotFound` error produced by `SensorFactory::_get` for an absent key,
and an error returned by a driver's `read_sync`, re-raised by `_run`. -/
inductive SenseError where
  | sensorNotFound (key : Str)
  | readFailed (msg : Str)
deriving DecidableEq

/-- `BTreeMap::insert`: replace the value when the key is present,
otherwise add the binding. -/
def btreeInsert (k : Str) (v : String) :
    List (Str × String) → List (Str × String)
  | [] => [(k, v)]
  | (k0, v0) :: rest =>
      if k0 = k then (k, v) :: rest else (k0, v0) :: btreeInsert k v rest

/-- The factory store built by `SensorFactory::new`
(`src/factories/sensor.rs`).  Note that `new` receives no configuration:
it unconditionally inserts the four drivers BME280, BH1750, DS3231SN and
VL53L0X under their `SensorConstant` keys. -/
def sensorFactoryStore : List (Str × SensorKind) :=
  [(bme280Key, SensorKind.bme280),
   (bh1750Key, SensorKind.bh1750),
   (ds3231snKey, SensorKind.ds3231sn),
   (vl53l0xKey, SensorKind.vl53l0x)]

/-- `SensorFactory::_get`: constant-time lookup in the store, `NotFound`
when the key is absent. -/
def factoryGet (key : Str) : Except SenseError SensorKind :=
  match sensorFactoryStore.lookup key with
  | some s => Except.ok s
  | none => Except.error (SenseError.sensorNotFound key)

/-- Response record of the orchestrator
(`SensingClientServiceResponseDTO`), holding the per-sensor data map. -/
structure SensingClientServiceResponseDTO where
  data : List (Str × String)
deriving DecidableEq

/-- A read environment: what each driver's `read_sync`, already formatted
by `format("{:?}", ...)` as in `_run`, returns during one cycle, keyed by
the lower-cased sensor name used for the factory lookup. -/
def ReadEnv := Str → Except Str String

/-- The loop body of `SensingClientService::_run`
(`src/services/sensing_client.rs`): for each configured key, look the
sensor up by lower-cased name (`?` propagates the lookup error), read it,
and on `Ok` insert the formatted measurement under the upper-cased key;
on `Err(e)` the source does `return Err(e)`. -/
def runLoop (reads : ReadEnv) :
    List Str → List (Str × String) →
      Except SenseError SensingClientServiceResponseDTO
  | [], data => Except.ok ⟨data⟩
  | sensorKey :: rest, data =>
      match factoryGet (lowerStr sensorKey) with
      | Except.error e => Except.error e
      | Except.ok _ =>
          match reads (lowerStr sensorKey) with
          | Except.ok m =>
              runLoop reads rest (btreeInsert (upperStr sensorKey) m data)
          | Except.error e => Except.error (SenseError.readFailed e)

/-- `SensingClientService::_run` over an include list and a read
environment, starting from the empty data map. -/
def sensingRun (inc : List Str) (reads : ReadEnv) :
    Except SenseError SensingClientServiceResponseDTO :=
  runLoop reads inc []

/-- A read environment in which every driver read succeeds with a fixed
formatted measurement. -/
def readsAllOk : ReadEnv := fun _ => Except.ok "measurement"

/-- A read environment in which every driver read fails with
`DeviceNotResponding`. -/
def readsAllFail : ReadEnv := fun _ => Except.error (strCodes "DeviceNotResponding")

example : sensingRun [bh1750Key] readsAllOk =
    Except.ok ⟨[(strCodes "BH1750", "measurement")]⟩ := rfl
example : sensingRun [bh1750Key] readsAllFail =
    Except.error (SenseError.readFailed (strCodes "DeviceNotResponding")) := rfl
example : sensingRun [strCodes "nosuch"] readsAllOk =
    Except.error (SenseError.sensorNotFound (strCodes "nosuch")) := rfl

lemma lookup_eq_none_of_not_mem (a : Str) :
    ∀ l : List (Str × SensorKind), a ∉ l.map Prod.fst → l.lookup a = none := by
  intro l
  induction l with
  | nil => intro _; rfl
  | cons p rest ih =>
      intro h
      simp only [List.map_cons, List.mem_cons, not_or] at h
      have hne : (a == p.1) = false := beq_eq_false_iff_ne.mpr h.1
      calc (p :: rest).lookup a
          = rest.lookup a := by
            simp only [List.lookup]
            rw [hne]
        _ = none := ih h.2

lemma factoryGet_error_of_not_mem (key : Str)
    (h : key ∉ sensorFactoryStore.map Prod.fst) :
    factoryGet key = Except.error (SenseError.sensorNotFound key) := by
  unfold factoryGet
  rw [lookup_eq_none_of_not_mem key sensorFactoryStore h]

lemma btreeInsert_keys_mem (k : Str) (v : String) (a : Str) :
    ∀ m : List (Str × String),
      (a ∈ (btreeInsert k v m).map Prod.fst ↔ a = k ∨ a ∈ m.map Prod.fst) := by
  intro m
  induction m with
  | nil => simp [btreeInsert]
  | cons p rest ih =>
      rcases p with ⟨k0, v0⟩
      by_cases h : k0 = k
      · subst h
        simp [btreeInsert]
      · simp only [btreeInsert, if_neg h, List.map_cons, List.mem_cons, ih]
        tauto

lemma btreeInsert_keys_nodup (k : Str) (v : String) :
    ∀ m : List (Str × String),
      (m.map Prod.fst).Nodup → ((btreeInsert k v m).map Prod.fst).Nodup := by
  intro m
  induction m with
  | nil => simp [btreeInsert]
  | cons p rest ih =>
      intro h
      rcases p with ⟨k0, v0⟩
      simp only [List.map_cons, List.nodup_cons] at h
      by_cases hk : k0 = k
      · subst hk
        simp [btreeInsert]
        refine ⟨fun x hx => h.1 ?_, h.2⟩
        exact List.mem_map_of_mem Prod.fst hx
      · simp only [btreeInsert, if_neg hk, List.map_cons, List.nodup_cons]
        constructor
        · rw [btreeInsert_keys_mem]
          rintro (rfl | hmem)
          · exact hk rfl
          · exact h.1 hmem
        · exact ih h.2

lemma runLoop_ok_keys (reads : ReadEnv) :
    ∀ (l : List Str) (acc : List (Str × String))
      (resp : SensingClientServiceResponseDTO),
      runLoop reads l acc = Except.ok resp →
      ∀ s, (s ∈ resp.data.map Prod.fst ↔
        (∃ n ∈ l, upperStr n = s) ∨ s ∈ acc.map Prod.fst) := by
  intro l
  induction l with
  | nil =>
      intro acc resp h s
      simp only [runLoop, Except.ok.injEq] at h
      subst h
      simp
  | cons k rest ih =>
      intro acc resp h s
      rw [runLoop] at h
      cases hf : factoryGet (lowerStr k) with
      | error e => rw [hf] at h; exact absurd h (by simp)
      | ok sk =>
          rw [hf] at h
          cases hr : reads (lowerStr k) with
          | error e => rw [hr] at h; exact absurd h (by simp)
          | ok m =>
              rw [hr] at h
              have := ih (btreeInsert (upperStr k) m acc) resp h s
              rw [this, btreeInsert_keys_mem]
              constructor
              · rintro (⟨n, hn, rfl⟩ | rfl | hacc)
                · exact Or.inl ⟨n, List.mem_cons_of_mem k hn, rfl⟩
                · exact Or.inl ⟨k, List.mem_cons_self k rest, rfl⟩
                · exact Or.inr hacc
              · rintro (⟨n, hn, rfl⟩ | hacc)
                · rcases List.mem_cons.mp hn with rfl | hn
                  · exact Or.inr (Or.inl rfl)
                  · exact Or.inl ⟨n, hn, rfl⟩
                · exact Or.inr (Or.inr hacc)

lemma runLoop_ok_nodup (reads : ReadEnv) :
    ∀ (l : List Str) (acc : List (Str × String))
      (resp : SensingClientServiceResponseDTO),
      runLoop reads l acc = Except.ok resp →
      (acc.map Prod.fst).Nodup → (resp.data.map Prod.fst).Nodup := by
  intro l
  induction l with
  | nil =>
      intro acc resp h hnd
      simp only [runLoop, Except.ok.injEq] at h
      subst h
      exact hnd
  | cons k rest ih =>
      intro acc resp h hnd
      rw [runLoop] at h
      cases hf : factoryGet (lowerStr k) with
      | error e => rw [hf] at h; exact absurd h (by simp)
      | ok sk =>
          rw [hf] at h
          cases hr : reads (lowerStr k) with
          | error e => rw [hr] at h; exact absurd h (by simp)
          | ok m =>
              rw [hr] at h
              exact ih _ resp h (btreeInsert_keys_nodup _ _ acc hnd)

lemma runLoop_aborts_on_read_error (reads : ReadEnv) (k : Str) (post : List Str)
    (e : Str) (he : reads (lowerStr k) = Except.error e)
    (hk : ∃ sk, factoryGet (lowerStr k) = Except.ok sk) :
    ∀ (pre : List Str) (acc : List (Str × String)),
      (∀ j ∈ pre, (∃ sj, factoryGet (lowerStr j) = Except.ok sj) ∧
        (∃ m, reads (lowerStr j) = Except.ok m)) →
      runLoop reads (pre ++ k :: post) acc =
        Except.error (SenseError.readFailed e) := by
  intro pre
  induction pre with
  | nil =>
      intro acc _
      obtain ⟨sk, hsk⟩ := hk
      simp [runLoop, hsk, he]
  | cons j rest ih =>
      intro acc hpre
      obtain ⟨⟨sj, hsj⟩, ⟨m, hm⟩⟩ := hpre j (List.mem_cons_self j rest)
      simp only [List.cons_append, runLoop, hsj, hm]
      exact ih _ (fun j' hj' => hpre j' (List.mem_cons_of_mem j hj'))

lemma upperChar_eq_of_lowerChar_eq (c1 c2 : Nat)
    (h : lowerChar c1 = lowerChar c2) : upperChar c1 = upperChar c2 := by
  unfold lowerChar at h
  unfold upperChar
  split_ifs at h ⊢ <;> omega

lemma upperStr_eq_of_lowerStr_eq :
    ∀ s t : Str, lowerStr s = lowerStr t → upperStr s = upperStr t := by
  intro s
  induction s with
  | nil =>
      intro t h
      cases t with
      | nil => rfl
      | cons c t' => exact absurd h (by simp [lowerStr])
  | cons c s' ih =>
      intro t h
      cases t with
      | nil => exact absurd h (by simp [lowerStr])
      | cons d t' =>
          simp only [lowerStr, List.map_cons, List.cons.injEq] at h
          simp only [upperStr, List.map_cons, List.cons.injEq]
          exact ⟨upperChar_eq_of_lowerChar_eq c d h.1, ih t' h.2⟩

lemma runLoop_case_insensitive (reads : ReadEnv) :
    ∀ (inc1 inc2 : List Str) (acc : List (Str × String)),
      inc1.map lowerStr = inc2.map lowerStr →
      runLoop reads inc1 acc = runLoop reads inc2 acc := by
  intro inc1
  induction inc1 with
  | nil =>
      intro inc2 acc h
      cases inc2 with
      | nil => rfl
      | cons k2 rest2 => exact absurd h (by simp)
  | cons k1 rest1 ih =>
      intro inc2 acc h
      cases inc2 with
      | nil => exact absurd h (by simp)
      | cons k2 rest2 =>
          simp only [List.map_cons, List.cons.injEq] at h
          have hup : upperStr k1 = upperStr k2 :=
            upperStr_eq_of_lowerStr_eq k1 k2 h.1
          rw [runLoop, runLoop, h.1, hup]
          cases factoryGet (lowerStr k2) with
          | error e => rfl
          | ok sk =>
              cases reads (lowerStr k2) with
              | error e => rfl
              | ok m => exact ih rest2 _ h.2

/-- Atmospheric measurement record of the BME280 driver
(`BME280SensorMeasurement` in `src/dtos/measurement/sensor/bme280.rs`). -/
structure BME280SensorMeasurement where
  temperature : ℚ
  humidity : ℚ
  pressure : ℚ
deriving DecidableEq

/-- `BME280Sensor::_read` (`src/sensors/bme280.rs`): the result of the
hardware `measure()` exchange comes in as an `Except`; on `Ok` the triple
is copied into the record, on `Err` the driver builds a record with
`temperature: 0.0, humidity: 0.0, pressure: 0.0` and still returns `Ok`. -/
def bme280_read (measureResult : Except Str (ℚ × ℚ × ℚ)) :
    Except Str BME280SensorMeasurement :=
  match measureResult with
  | Except.ok m => Except.ok ⟨m.1, m.2.1, m.2.2⟩
  | Except.error _ => Except.ok ⟨0, 0, 0⟩

/-- Range measurement record of the VL53L0X driver.  The `distance_mm`
field is modelled as an integer wide enough to hold both a `u16` reading
and the `i32::MAX` constant the source stores on the error path. -/
structure VL53L0XSensorMeasurement where
  distance_mm : ℤ
  status : String
deriving DecidableEq

/-- The Rust constant `i32::MAX`. -/
def i32Max : ℤ := 2147483647

/-- The Rust constant `u16::MAX`. -/
def u16Max : ℤ := 65535

/-- `VL53L0XSensor::_read` (`src/sensors/vl53l0x.rs`): the result of
`read_range_single_millimeters_blocking()` (a `u16` on success) comes in
as an `Except`; on `Ok` the distance is classified, on `Err` the driver
builds `distance_mm: i32::MAX, status: UNKNOWN` and still returns `Ok`. -/
def vl53l0x_read (rangeResult : Except Str Nat) :
    Except Str VL53L0XSensorMeasurement :=
  match rangeResult with
  | Except.ok d => Except.ok ⟨(d : ℤ), get_distance_status d⟩
  | Except.error _ => Except.ok ⟨i32Max, "UNKNOWN"⟩

/-- State of the DS3231 real-time clock chip: the held time (unix
seconds) and the in-chip marker bit the spec calls the "initialized"
marker.  The source never reads or writes such a marker. -/
structure RtcState where
  time : Nat
  initializedMarker : Bool
deriving DecidableEq

/-- `DS323XSensor::new` (`src/sensors/ds323x.rs`) as a transition on the
RTC chip state: the constructor reads the OS clock
(`SystemTime::now().duration_since(UNIX_EPOCH)`) inside the driver and
unconditionally calls `set_datetime` with it; no marker is consulted. -/
def ds323x_new (osClockNow : Nat) (rtc : RtcState) : RtcState :=
  { rtc with time := osClockNow }

/-- Iterated boots: each boot constructs the driver once, with the OS
clock showing the given value at that boot. -/
def ds323xBoots (osTimes : List Nat) (rtc : RtcState) : RtcState :=
  osTimes.foldl (fun r t => ds323x_new t r) rtc

lemma light_rank_violation :
    (201/20 : ℚ) ≤ 20 ∧
      lightConditionRank (get_light_condition 20) <
        lightConditionRank (get_light_condition (201/20)) := by
  have h1 : get_light_condition (201/20) = "EXTREME" := by
    norm_num [get_light_condition]
  have h2 : get_light_condition 20 = "DARK" := by
    norm_num [get_light_condition]
  refine ⟨by norm_num, ?_⟩
  rw [h1, h2]
  decide

/-- C1 counterexample: with `bh1750` configured and its `read_sync`
failing with `DeviceNotResponding`, `_run` returns that error instead of
a report record — the per-read error is propagated past the
orchestrator and no slot records the failure. -/
theorem C1_counterexample :
    sensingRun [bh1750Key] readsAllFail =
      Except.error (SenseError.readFailed (strCodes "DeviceNotResponding")) ∧
    (sensingRun [bh1750Key] readsAllFail).isOk = false :=
  ⟨rfl, rfl⟩

/-- C1 (amended): when any configured driver's read fails (every earlier
configured sensor having resolved and read successfully), the
orchestrator's `_run` aborts the cycle and returns that read error; no
report record is produced. -/
theorem C1_run_aborts_on_read_failure (pre : List Str) (k : Str)
    (post : List Str) (reads : ReadEnv) (e : Str)
    (hpre : ∀ j ∈ pre, (∃ sj, factoryGet (lowerStr j) = Except.ok sj) ∧
      (∃ m, reads (lowerStr j) = Except.ok m))
    (hk : ∃ sk, factoryGet (lowerStr k) = Except.ok sk)
    (he : reads (lowerStr k) = Except.error e) :
    sensingRun (pre ++ k :: post) reads =
      Except.error (SenseError.readFailed e) :=
  runLoop_aborts_on_read_error reads k post e he hk pre [] hpre

/-- C1 witness: the amended statement applied at a one-sensor
configuration whose only read fails. -/
theorem C1_witness :
    sensingRun ([] ++ bh1750Key :: []) readsAllFail =
      Except.error (SenseError.readFailed (strCodes "DeviceNotResponding")) :=
  C1_run_aborts_on_read_failure [] bh1750Key [] readsAllFail
    (strCodes "DeviceNotResponding") (by simp)
    ⟨SensorKind.bh1750, rfl⟩ rfl

/-- C2: for every report record produced by a successful `_run`, the key
set of its data map is exactly the set of upper-cased configured names,
and the keys are pairwise distinct (one outcome entry per distinct
configured sensor name). -/
theorem C2_run_success_keys (inc : List Str) (reads : ReadEnv)
    (resp : SensingClientServiceResponseDTO)
    (h : sensingRun inc reads = Except.ok resp) :
    (∀ s, s ∈ resp.data.map Prod.fst ↔ ∃ n ∈ inc, upperStr n = s) ∧
    (resp.data.map Prod.fst).Nodup := by
  constructor
  · intro s
    have hk := runLoop_ok_keys reads inc [] resp h s
    simpa using hk
  · exact runLoop_ok_nodup reads inc [] resp h (by simp)

/-- C2 witness: the key-set property applied to the concrete successful
run over `include = ["bh1750"]`. -/
theorem C2_witness :
    (strCodes "BH1750" ∈
        (SensingClientServiceResponseDTO.mk
          [(strCodes "BH1750", "measurement")]).data.map Prod.fst ↔
      ∃ n ∈ [bh1750Key], upperStr n = strCodes "BH1750") ∧
    ((SensingClientServiceResponseDTO.mk
        [(strCodes "BH1750", "measurement")]).data.map Prod.fst).Nodup :=
  ⟨(C2_run_success_keys [bh1750Key] readsAllOk
      ⟨[(strCodes "BH1750", "measurement")]⟩ rfl).1 (strCodes "BH1750"),
   (C2_run_success_keys [bh1750Key] readsAllOk
      ⟨[(strCodes "BH1750", "measurement")]⟩ rfl).2⟩

/-- C3 counterexample: 10.05 lux lies in the claimed DARK bin (10, 50],
but `get_light_condition` classifies it as EXTREME, because the source
ranges `0.0..=10.0` and `10.1..=50.0` leave the gap (10, 10.1) to the
catch-all arm. -/
theorem C3_counterexample :
    (10 : ℚ) < 201/20 ∧ (201/20 : ℚ) ≤ 50 ∧
    get_light_condition (201/20) = "EXTREME" ∧
    get_light_condition (201/20) ≠ "DARK" := by
  have h : get_light_condition (201/20) = "EXTREME" := by
    norm_num [get_light_condition]
  refine ⟨by norm_num, by norm_num, h, ?_⟩
  rw [h]
  decide

/-- C3 (amended): `get_light_condition` returns VERY_DARK on [0, 10],
DARK on [10.1, 50], DIM on [50.1, 200], NORMAL on [200.1, 1000], BRIGHT
on [1000.1, 5000], VERY_BRIGHT on [5000.1, 10000], and EXTREME everywhere
else — on negative inputs, on each gap (10, 10.1), (50, 50.1),
(200, 200.1), (1000, 1000.1), (5000, 5000.1), and above 10000; every
input maps to one of the seven labels. -/
theorem C3_light_condition_bins (lux : ℚ) :
    get_light_condition lux = lightConditionBins lux ∧
    get_light_condition lux ∈ lightLabels :=
  ⟨get_light_condition_eq_bins lux, get_light_condition_total lux⟩

/-- C4 counterexample: monotonicity fails for the light classifier:
10.05 ≤ 20 but rank(condition(10.05)) = rank(EXTREME) = 6 exceeds
rank(condition(20)) = rank(DARK) = 1. -/
theorem C4_counterexample :
    (201/20 : ℚ) ≤ 20 ∧
      lightConditionRank (get_light_condition 20) <
        lightConditionRank (get_light_condition (201/20)) :=
  light_rank_violation

/-- C4 (amended): the u16 distance classifier is total and monotone in
rank; the lux classifier is total over the seven labels but not
monotone — a pair of inputs witnesses a rank inversion. -/
theorem C4_classifier_monotonicity (d1 d2 : Nat) (h : d1 ≤ d2) (lux : ℚ) :
    proximityRank (get_distance_status d1) ≤
        proximityRank (get_distance_status d2) ∧
    get_distance_status d1 ∈ distanceLabels ∧
    get_light_condition lux ∈ lightLabels ∧
    ∃ l1 l2 : ℚ, l1 ≤ l2 ∧
      lightConditionRank (get_light_condition l2) <
        lightConditionRank (get_light_condition l1) :=
  ⟨get_distance_status_mono d1 d2 h, get_distance_status_total d1,
   get_light_condition_total lux,
   ⟨201/20, 20, light_rank_violation.1, light_rank_violation.2⟩⟩

/-- C4 witness: the amended statement applied at distances 7 ≤ 2500 and
lux 250. -/
theorem C4_witness :
    proximityRank (get_distance_status 7) ≤
        proximityRank (get_distance_status 2500) ∧
    get_distance_status 7 ∈ distanceLabels ∧
    get_light_condition 250 ∈ lightLabels ∧
    ∃ l1 l2 : ℚ, l1 ≤ l2 ∧
      lightConditionRank (get_light_condition l2) <
        lightConditionRank (get_light_condition l1) :=
  C4_classifier_monotonicity 7 2500 (by omega) 250

/-- C5 counterexample: when the BME280 measurement exchange fails, the
driver returns `Ok` with an all-zero record — it substitutes zeros and
reports no `DeviceNotResponding` failure. -/
theorem C5_counterexample :
    bme280_read (Except.error (strCodes "DeviceNotResponding")) =
      Except.ok ⟨0, 0, 0⟩ ∧
    (bme280_read (Except.error (strCodes "DeviceNotResponding"))).isOk = true :=
  ⟨rfl, rfl⟩

/-- C5 (amended): on every failed measurement exchange the BME280 driver
swallows the error and returns `Ok` with temperature, humidity and
pressure all substituted by zero. -/
theorem C5_bme280_zero_substitution (e : Str) :
    bme280_read (Except.error e) = Except.ok ⟨0, 0, 0⟩ ∧
    (bme280_read (Except.error e)).isOk = true :=
  ⟨rfl, rfl⟩

/-- C6 counterexample: on a failed range read the VL53L0X driver stores
`i32::MAX` = 2147483647 in `distance_mm`, not `u16::MAX` = 65535 (the
status is UNKNOWN as claimed). -/
theorem C6_counterexample :
    vl53l0x_read (Except.error (strCodes "hardware")) =
      Except.ok ⟨i32Max, "UNKNOWN"⟩ ∧
    i32Max = 2147483647 ∧ i32Max ≠ u16Max :=
  ⟨rfl, by decide, by decide⟩

/-- C6 (amended): on every hardware failure of a range read, the returned
measurement has `distance_mm = i32::MAX` (2147483647) and
`status = UNKNOWN`. -/
theorem C6_vl53l0x_failure_value (e : Str) :
    vl53l0x_read (Except.error e) = Except.ok ⟨i32Max, "UNKNOWN"⟩ ∧
    i32Max = 2147483647 :=
  ⟨rfl, by decide⟩

/-- C7 counterexample: constructing the DS3231 driver over a chip whose
"initialized" marker is set and whose clock reads 5 overwrites the RTC
time with the OS clock's 7 — construction does not leave the time
unchanged. -/
theorem C7_counterexample :
    ds323x_new 7 ⟨5, true⟩ = ⟨7, true⟩ ∧
    (ds323x_new 7 ⟨5, true⟩).time ≠ (5 : Nat) :=
  ⟨rfl, by decide⟩

/-- C7 (amended): `DS323XSensor::new` seeds the RTC unconditionally on
every construction from a unix-seconds value read off the OS clock inside
the driver; no initialized marker guards the write, so after any sequence
of boots the RTC holds the last boot's OS time, regardless of the chip's
prior time or marker. -/
theorem C7_ds323x_always_seeds (osTimes : List Nat) (t : Nat)
    (rtc : RtcState) :
    (ds323x_new t rtc).time = t ∧
    (ds323x_new t rtc).initializedMarker = rtc.initializedMarker ∧
    (ds323xBoots (osTimes ++ [t]) rtc).time = t := by
  refine ⟨rfl, rfl, ?_⟩
  simp [ds323xBoots, List.foldl_append, ds323x_new]

/-- C8 counterexample: the factory store always holds drivers for the
four fixed names bme280, bh1750, ds3231sn, vl53l0x — in particular a
bme280 driver exists although the configuration include list ["bh1750"]
does not name it — and an unknown include name produces a NotFound error
from `get` during the run, not at construction. -/
theorem C8_counterexample :
    sensorFactoryStore.map Prod.fst =
      [bme280Key, bh1750Key, ds3231snKey, vl53l0xKey] ∧
    bme280Key ∉ [bh1750Key] ∧
    sensingRun [strCodes "nosuch"] readsAllOk =
      Except.error (SenseError.sensorNotFound (strCodes "nosuch")) :=
  ⟨rfl, by decide, rfl⟩

/-- C8 (amended): `SensorFactory::new` receives no configuration and
always constructs the fixed driver set {bme280, bh1750, ds3231sn,
vl53l0x}; an include name whose lower-cased form is outside this store is
not a boot error but surfaces as a NotFound error from `get` when the
cycle runs, aborting the run with no record. -/
theorem C8_factory_fixed_store (k : Str) (reads : ReadEnv)
    (h : lowerStr k ∉ sensorFactoryStore.map Prod.fst) :
    sensorFactoryStore.map Prod.fst =
      [bme280Key, bh1750Key, ds3231snKey, vl53l0xKey] ∧
    sensingRun [k] reads =
      Except.error (SenseError.sensorNotFound (lowerStr k)) := by
  refine ⟨rfl, ?_⟩
  have hf := factoryGet_error_of_not_mem (lowerStr k) h
  simp [sensingRun, runLoop, hf]

/-- C8 witness: the amended statement applied to the unknown include name
"nosuch". -/
theorem C8_witness :
    sensorFactoryStore.map Prod.fst =
      [bme280Key, bh1750Key, ds3231snKey, vl53l0xKey] ∧
    sensingRun [strCodes "nosuch"] readsAllOk =
      Except.error (SenseError.sensorNotFound (lowerStr (strCodes "nosuch"))) :=
  C8_factory_fixed_store (strCodes "nosuch") readsAllOk (by decide)

/-- C10: the orchestrator's run is invariant under the letter case of the
include entries — configurations whose include lists agree after
lower-casing produce identical results, because lookup uses the
lower-cased name and insertion the upper-cased one. -/
theorem C10_run_case_insensitive (inc1 inc2 : List Str) (reads : ReadEnv)
    (h : inc1.map lowerStr = inc2.map lowerStr) :
    sensingRun inc1 reads = sensingRun inc2 reads :=
  runLoop_case_insensitive reads inc1 inc2 [] h

/-- C10 witness: the case-invariance applied to the include lists
["BH1750"] and ["bh1750"]. -/
theorem C10_witness :
    sensingRun [strCodes "BH1750"] readsAllOk =
      sensingRun [bh1750Key] readsAllOk :=
  C10_run_case_insensitive [strCodes "BH1750"] [bh1750Key] readsAllOk
    (by decide)
